import Mathlib

/-!
Verification of the syslog5424 encoder (src/lib.rs, src/types.rs, src/iana.rs,
src/rfc5424/mod.rs) against its natural-language specification.

Rust strings are modelled as `List Char`; byte sequences as `List Nat`
(each entry one octet, below 256). UTF-8 encoding of a string is made
explicit through `charUtf8` and `strBytes`, since the source counts bytes
(`as_bytes().len()`, `str::len`) in the framing length and in field caps.
-/

namespace Syslog5424

/-- Errors returned when verifying validity of metadata (`Error` in src/lib.rs). -/
inductive Error where
  | FieldEmpty
  | FieldTooLong
  | InvalidCharacters
deriving DecidableEq, Repr

/-- Format of messages written out (`WriteFormat` in src/lib.rs): RFC5425 just
prepends the length of the 5424 message. -/
inductive WriteFormat where
  | RFC5424
  | RFC5425
deriving DecidableEq, Repr

/-- The `Default` impl for `WriteFormat` in src/lib.rs. -/
def WriteFormat.default : WriteFormat := .RFC5424

/-- Value used when a field is optional, and not present (src/lib.rs `NILVALUE`). -/
def NILVALUE : Char := '-'

/-- The fixed 3-byte UTF-8 byte-order mark (src/lib.rs `BOM`). -/
def BOM : List Nat := [0xEF, 0xBB, 0xBF]

/-- Syslog facility (src/types.rs), with the Rust discriminants recovered by
`Facility.code`. -/
inductive Facility where
  | Kernel | User | Mail | Daemon | Auth | Syslog | LinePrinter | News
  | UUCP | Cron | AuthPriv | FTP | NTP | Security | Console | ClockDaemon
  | Local0 | Local1 | Local2 | Local3 | Local4 | Local5 | Local6 | Local7
deriving DecidableEq, Repr

/-- The numeric discriminant of each `Facility` constructor (`facility as u8`). -/
def Facility.code : Facility → Nat
  | .Kernel => 0 | .User => 1 | .Mail => 2 | .Daemon => 3
  | .Auth => 4 | .Syslog => 5 | .LinePrinter => 6 | .News => 7
  | .UUCP => 8 | .Cron => 9 | .AuthPriv => 10 | .FTP => 11
  | .NTP => 12 | .Security => 13 | .Console => 14 | .ClockDaemon => 15
  | .Local0 => 16 | .Local1 => 17 | .Local2 => 18 | .Local3 => 19
  | .Local4 => 20 | .Local5 => 21 | .Local6 => 22 | .Local7 => 23

/-- The `Default` impl for `Facility` in src/types.rs. -/
def Facility.default : Facility := .User

/-- Syslog severity (src/types.rs), with the Rust discriminants recovered by
`Severity.code`. -/
inductive Severity where
  | Emergency | Alert | Critical | Error | Warning | Notice | Informational | Debug
deriving DecidableEq, Repr

/-- The numeric discriminant of each `Severity` constructor (`severity as u8`). -/
def Severity.code : Severity → Nat
  | .Emergency => 0 | .Alert => 1 | .Critical => 2 | .Error => 3
  | .Warning => 4 | .Notice => 5 | .Informational => 6 | .Debug => 7

/-- The message portion of a syslog message (src/types.rs `Message`): UTF-8 text
or binary bytes. -/
inductive Message where
  | Text (s : List Char)
  | Binary (data : List Nat)
deriving DecidableEq, Repr

/-- Rust `char::is_ascii_graphic`: the range U+0021 through U+007E. -/
def is_ascii_graphic (c : Char) : Bool :=
  0x21 ≤ c.toNat && c.toNat ≤ 0x7E

/-- The UTF-8 encoding of one scalar value, as the list of its octets. -/
def charUtf8 (c : Char) : List Nat :=
  let n := c.toNat
  if n < 0x80 then [n]
  else if n < 0x800 then [0xC0 + n / 0x40, 0x80 + n % 0x40]
  else if n < 0x10000 then
    [0xE0 + n / 0x1000, 0x80 + n / 0x40 % 0x40, 0x80 + n % 0x40]
  else
    [0xF0 + n / 0x40000, 0x80 + n / 0x1000 % 0x40, 0x80 + n / 0x40 % 0x40,
      0x80 + n % 0x40]

/-- The UTF-8 bytes of a string: what Rust `str::as_bytes` yields. -/
def strBytes (s : List Char) : List Nat :=
  (s.map charUtf8).flatten

/-- Convert a string into a header value after verifying it is valid
(src/types.rs `new_header_val`). The length test is Rust `str::len`,
a byte count. -/
def new_header_val (value : List Char) (max_length : Nat) : Except Error (List Char) :=
  if value.isEmpty then .error .FieldEmpty
  else if !(value.all is_ascii_graphic) then .error .InvalidCharacters
  else if max_length < (strBytes value).length then .error .FieldTooLong
  else .ok value

/-- Wrapper for the Host Name, limited to 255 ASCII chars (src/types.rs). -/
structure HostName where
  val : List Char
deriving DecidableEq, Repr

/-- The fallible `HostName::new` constructor. -/
def HostName.new (hostname : List Char) : Except Error HostName :=
  (new_header_val hostname 255).map HostName.mk

/-- The `Default` impl for `HostName`: the nil sentinel. -/
def HostName.default : HostName := ⟨[NILVALUE]⟩

/-- Wrapper for the App Name, limited to 48 ASCII chars (src/types.rs). -/
structure AppName where
  val : List Char
deriving DecidableEq, Repr

/-- The fallible `AppName::new` constructor. -/
def AppName.new (name : List Char) : Except Error AppName :=
  (new_header_val name 48).map AppName.mk

/-- The `Default` impl for `AppName`: the nil sentinel. -/
def AppName.default : AppName := ⟨[NILVALUE]⟩

/-- Wrapper for the Process ID, limited to 128 ASCII chars (src/types.rs). -/
structure ProcessId where
  val : List Char
deriving DecidableEq, Repr

/-- The fallible `ProcessId::new` constructor. -/
def ProcessId.new (id : List Char) : Except Error ProcessId :=
  (new_header_val id 128).map ProcessId.mk

/-- The `Default` impl for `ProcessId`: the nil sentinel. -/
def ProcessId.default : ProcessId := ⟨[NILVALUE]⟩

/-- Wrapper for the Message ID, limited to 32 ASCII chars (src/types.rs). -/
structure MessageId where
  val : List Char
deriving DecidableEq, Repr

/-- The fallible `MessageId::new` constructor. -/
def MessageId.new (id : List Char) : Except Error MessageId :=
  (new_header_val id 32).map MessageId.mk

/-- The `Default` impl for `MessageId`: the nil sentinel. -/
def MessageId.default : MessageId := ⟨[NILVALUE]⟩

/-- Model of Rust `str::replace` for a single-character pattern: every
occurrence of `pat` becomes `rep`. -/
def replaceChar (pat : Char) (rep : List Char) (s : List Char) : List Char :=
  (s.map (fun c => if c = pat then rep else [c])).flatten

/-- Escape the `val` parameter according to the PARAM-VALUE rule
(src/types.rs `escape_val`): backslash first, then double-quote, then
closing bracket, each substitution applied to the previous result. -/
def escape_val (val : List Char) : List Char :=
  replaceChar ']' ['\\', ']']
    (replaceChar '"' ['\\', '"']
      (replaceChar '\\' ['\\', '\\'] val))

/-- Remove invalid characters from `name` (src/types.rs `remove_invalid`):
keep ASCII-graphic characters, drop the four listed characters, truncate
to 32 characters. -/
def remove_invalid (name : List Char) : List Char :=
  (((((name.filter is_ascii_graphic).filter
    (fun c => c != '=')).filter
    (fun c => c != ' ')).filter
    (fun c => c != ']')).filter
    (fun c => c != '"')).take 32

/-- IANA reserved origin key-value pair (src/iana.rs `Origin`). -/
inductive Origin where
  | Ip (s : List Char)
  | EnterpriseId (s : List Char)
  | Software (s : List Char)
  | Version (s : List Char)
deriving DecidableEq, Repr

/-- The `fmt::Display` impl for `Origin` in src/iana.rs. -/
def Origin.display : Origin → List Char
  | .Ip s => " ip=\"".toList ++ s ++ ['"']
  | .EnterpriseId s => " enterpriseId=\"".toList ++ s ++ ['"']
  | .Software s => " software=\"".toList ++ s ++ ['"']
  | .Version s => " swVersion=\"".toList ++ s ++ ['"']

/-- IANA reserved time quality key-value pair (src/iana.rs `TimeQuality`).
`SyncAccuracy` holds a `u32`; only its decimal rendering matters here. -/
inductive TimeQuality where
  | TzKnown (b : Bool)
  | IsSynced (b : Bool)
  | SyncAccuracy (n : Nat)
deriving DecidableEq, Repr

/-- The `fmt::Display` impl for `TimeQuality` in src/iana.rs. -/
def TimeQuality.display : TimeQuality → List Char
  | .TzKnown b => if b then " tzKnown=\"1\"".toList else " tz_known=\"0\"".toList
  | .IsSynced b => if b then " isSynced=\"1\"".toList else " isSynced=\"0\"".toList
  | .SyncAccuracy n => " syncAccuracy=\"".toList ++ Nat.toDigits 10 n ++ ['"']

/-- The structured-data payload of one event. In the source this is
`HashMap<&str, Vec<(String, String)>>`; it is modelled as the association
list the `format` loop iterates over, in iteration order. The map
character of the Rust type (keys unique, insertion of an existing key
overwriting) lives in `StructuredData.insert`. -/
abbrev StructuredData := List (List Char × List (List Char × List Char))

/-- Model of `HashMap::insert` on the association-list representation:
inserting a key already present replaces the value stored under it;
otherwise the new binding is appended. -/
def StructuredData.insert (sd : StructuredData) (k : List Char)
    (v : List (List Char × List Char)) : StructuredData :=
  if sd.any (fun e => e.1 == k) then
    sd.map (fun e => if e.1 == k then (k, v) else e)
  else sd ++ [(k, v)]

/-- The empty structured-data map. -/
def StructuredData.empty : StructuredData := []

/-- Holds the metadata needed for formatting a RFC5424 syslog message
(src/lib.rs `Rfc5424`). -/
structure Rfc5424 where
  version : Nat
  hostname : HostName
  app_name : AppName
  pid : ProcessId
  msg_id : MessageId
  facility : Facility
  enterprise_id : List Char
  iana_time_quality : List TimeQuality
  iana_origin : List Origin
  write_format : WriteFormat
deriving DecidableEq, Repr

/-- The derived `Default` impl for `Rfc5424` in src/lib.rs: numeric zero and
each field type's own default. -/
def Rfc5424.default : Rfc5424 where
  version := 0
  hostname := HostName.default
  app_name := AppName.default
  pid := ProcessId.default
  msg_id := MessageId.default
  facility := Facility.default
  enterprise_id := []
  iana_time_quality := []
  iana_origin := []
  write_format := WriteFormat.default

/-- Builder for `Rfc5424` (src/lib.rs `Rfc5424Builder`). -/
structure Rfc5424Builder where
  data : Rfc5424
deriving DecidableEq, Repr

/-- `Rfc5424Builder::new`: version 1, the given facility and enterprise id,
everything else defaulted. -/
def Rfc5424Builder.new (enterprise_id : List Char) (facility : Facility) :
    Rfc5424Builder :=
  ⟨{ Rfc5424.default with
      version := 1
      facility := facility
      enterprise_id := enterprise_id }⟩

/-- `Rfc5424Builder::build`: transform the builder into a formatter struct. -/
def Rfc5424Builder.build (b : Rfc5424Builder) : Rfc5424 := b.data

/-- One implementation of the `Rfc5424Data` trait of src/lib.rs: the four
accessors, as pure per-event data. -/
structure Rfc5424Data where
  severity : Severity
  timestamp : Option (List Char)
  structured_data : Option StructuredData
  message : Option Message

/-- Priority computation of the main encoder (src/lib.rs `generate_priority`):
`(facility as u8 * 8) + severity as u8`, rendered `<N>`. The `u8` arithmetic
cannot wrap: the largest value is 23 * 8 + 7 = 191. -/
def generate_priority (facility : Facility) (severity : Severity) : List Char :=
  '<' :: (Nat.toDigits 10 (facility.code * 8 + severity.code) ++ ['>'])

/-- The token a single structured-data parameter contributes inside its block
(the inner loop of `format` in src/lib.rs): space, sanitized name, `=`,
quoted escaped value. -/
def pairTok (p : List Char × List Char) : List Char :=
  ' ' :: (remove_invalid p.1 ++ '=' :: '"' :: (escape_val p.2 ++ ['"']))

/-- The string `format` accumulates in `log` before any write (src/lib.rs,
`Rfc5424::format`): header, structured data, the nil rule, and the
separating space pushed when a message body is present. -/
def formatLog (cfg : Rfc5424) (m : Rfc5424Data) : List Char :=
  let log : List Char := []
  let log := log ++ generate_priority cfg.facility m.severity
  let log := log ++ Nat.toDigits 10 cfg.version
  let log := log ++ [' ']
  let log := match m.timestamp with
    | some time => log ++ time
    | none => log ++ [NILVALUE]
  let log := log ++ [' ']
  let log := log ++ cfg.hostname.val ++ [' ']
  let log := log ++ cfg.app_name.val ++ [' ']
  let log := log ++ cfg.pid.val ++ [' ']
  let log := log ++ cfg.msg_id.val ++ [' ']
  let log := if !cfg.iana_origin.isEmpty then
      (cfg.iana_origin.foldl (fun l v => l ++ v.display)
        (log ++ "[origin".toList)) ++ [']']
    else log
  let log := if !cfg.iana_time_quality.isEmpty then
      (cfg.iana_time_quality.foldl (fun l v => l ++ v.display)
        (log ++ "[timeQuality".toList)) ++ [']']
    else log
  let log := match m.structured_data with
    | some sd => sd.foldl (fun log e =>
        (e.2.foldl (fun l p => l ++ pairTok p)
          (log ++ '[' :: (remove_invalid e.1 ++ '@' :: cfg.enterprise_id))) ++ [']']) log
    | none => log
  let log := if m.structured_data.isNone && cfg.iana_origin.isEmpty
      && cfg.iana_time_quality.isEmpty then log ++ [NILVALUE] else log
  if m.message.isSome then log ++ [' '] else log

/-- The `msg_len` computed by `format`: extra bytes the body will add — text
bodies count their UTF-8 bytes plus 3 for the BOM, binary bodies their raw
length. -/
def msg_len (m : Rfc5424Data) : Option Nat :=
  m.message.map (fun msg => match msg with
    | .Text s => (strBytes s).length + 3
    | .Binary data => data.length)

/-- The bytes `format` writes after `log`: BOM plus UTF-8 text for a text
body, the raw bytes for a binary body, nothing when there is no body. -/
def bodyBytes (m : Rfc5424Data) : List Nat :=
  match m.message with
  | some (.Text s) => BOM ++ strBytes s
  | some (.Binary data) => data
  | none => []

/-- Everything `Rfc5424::format` writes to the sink, in order: the RFC5425
length prefix when that write format is selected, the UTF-8 bytes of `log`,
then the body bytes. -/
def formatOutput (cfg : Rfc5424) (m : Rfc5424Data) : List Nat :=
  let log := formatLog cfg m
  let frame : List Nat :=
    if cfg.write_format = WriteFormat.RFC5425 then
      let length := match msg_len m with
        | some bytes => (strBytes log).length + bytes
        | none => (strBytes log).length
      strBytes (Nat.toDigits 10 length ++ [' '])
    else []
  frame ++ strBytes log ++ bodyBytes m

/-- The origin reserved block as a standalone string: empty when no origin
entry was configured, otherwise the bracketed block. -/
def originSection (cfg : Rfc5424) : List Char :=
  if cfg.iana_origin.isEmpty then []
  else "[origin".toList ++ (cfg.iana_origin.map Origin.display).flatten ++ [']']

/-- The timeQuality reserved block as a standalone string: empty when no
time-quality entry was configured, otherwise the bracketed block. -/
def timeQualitySection (cfg : Rfc5424) : List Char :=
  if cfg.iana_time_quality.isEmpty then []
  else "[timeQuality".toList ++ (cfg.iana_time_quality.map TimeQuality.display).flatten ++ [']']

/-- The block one structured-data entry contributes: bracket, sanitized
identifier, `@`, enterprise id, one token per parameter pair, closing
bracket. -/
def entryBlock (eid : List Char) (e : List Char × List (List Char × List Char)) :
    List Char :=
  '[' :: (remove_invalid e.1 ++ '@' :: eid) ++ (e.2.map pairTok).flatten ++ [']']

/-- The event-supplied structured-data blocks: one `entryBlock` per entry, in
iteration order; nothing when the event supplied no structured data. -/
def sdBlocksSection (eid : List Char) (sdo : Option StructuredData) : List Char :=
  match sdo with
  | some sd => (sd.map (entryBlock eid)).flatten
  | none => []

/-- The nil sentinel emitted in place of the structured-data section, exactly
under the condition tested in `format`: the event supplied no structured
data and both reserved blocks are empty. -/
def nilSection (cfg : Rfc5424) (sdo : Option StructuredData) : List Char :=
  if sdo.isNone && cfg.iana_origin.isEmpty && cfg.iana_time_quality.isEmpty
  then [NILVALUE] else []

/-- The full structured-data section of the output: reserved blocks, then the
event blocks, then the nil sentinel when it applies. -/
def sdSection (cfg : Rfc5424) (m : Rfc5424Data) : List Char :=
  originSection cfg ++ timeQualitySection cfg
    ++ sdBlocksSection cfg.enterprise_id m.structured_data
    ++ nilSection cfg m.structured_data

/-- The header of the message: priority, version, timestamp, the four header
fields, each followed by one space. -/
def headerPart (cfg : Rfc5424) (m : Rfc5424Data) : List Char :=
  generate_priority cfg.facility m.severity
    ++ Nat.toDigits 10 cfg.version ++ [' ']
    ++ (match m.timestamp with | some time => time | none => [NILVALUE]) ++ [' ']
    ++ cfg.hostname.val ++ [' '] ++ cfg.app_name.val ++ [' ']
    ++ cfg.pid.val ++ [' '] ++ cfg.msg_id.val ++ [' ']

/-- Concrete framed configuration used to instantiate the framing theorem:
the default metadata with the RFC5425 write format selected. -/
def cfgC2 : Rfc5424 := { Rfc5424.default with write_format := .RFC5425 }

/-- Concrete event with a multi-byte text body, used to instantiate the
framing theorem. -/
def evC2 : Rfc5424Data := ⟨.Error, none, none, some (.Text "héllo".toList)⟩

/-- Concrete configuration with no reserved blocks. -/
def cfgC4 : Rfc5424 := (Rfc5424Builder.new "32473".toList .User).build

/-- Concrete event whose structured data is Some of the empty mapping. -/
def evC4 : Rfc5424Data := ⟨.Debug, none, some StructuredData.empty, none⟩

/-- The structured data obtained by inserting two pair sequences under the
same identifier, one after the other. -/
def sdC5 : StructuredData :=
  StructuredData.insert (StructuredData.insert StructuredData.empty
    "dup".toList [("a".toList, "1".toList)]) "dup".toList [("b".toList, "2".toList)]

/-- Concrete configuration whose enterprise id contains a closing bracket, a
space and a double quote. -/
def cfgC10 : Rfc5424 :=
  (Rfc5424Builder.new "a] \"b".toList .User).build

/-- Concrete event with one structured-data entry, used to exhibit the
verbatim enterprise id in the output. -/
def evC10 : Rfc5424Data :=
  ⟨.Informational, none, some [("my id".toList, [("k".toList, "v".toList)])], none⟩

end Syslog5424

namespace Syslog5424.rfc5424

/-- Facility enumeration of the older src/rfc5424/types.rs module. -/
inductive Facility where
  | Kernel | User | Mail | SystemDaemon | SecurityAuth | Syslog | LinePrinter
  | NetworkNews | UUCP | ClockDaemon | SecurityAuth2 | FTP | NTP | LogAudit
  | LogAlert | ClockDaemon2
  | Local0 | Local1 | Local2 | Local3 | Local4 | Local5 | Local6 | Local7
deriving DecidableEq, Repr

/-- The numeric discriminant of the older `Facility`. -/
def Facility.code : Facility → Nat
  | .Kernel => 0 | .User => 1 | .Mail => 2 | .SystemDaemon => 3
  | .SecurityAuth => 4 | .Syslog => 5 | .LinePrinter => 6 | .NetworkNews => 7
  | .UUCP => 8 | .ClockDaemon => 9 | .SecurityAuth2 => 10 | .FTP => 11
  | .NTP => 12 | .LogAudit => 13 | .LogAlert => 14 | .ClockDaemon2 => 15
  | .Local0 => 16 | .Local1 => 17 | .Local2 => 18 | .Local3 => 19
  | .Local4 => 20 | .Local5 => 21 | .Local6 => 22 | .Local7 => 23

/-- Severity enumeration of the older src/rfc5424/types.rs module. -/
inductive Severity where
  | Emergency | Alert | Critical | Error | Warning | Notice | Informational | Debug
deriving DecidableEq, Repr

/-- The numeric discriminant of the older `Severity`. -/
def Severity.code : Severity → Nat
  | .Emergency => 0 | .Alert => 1 | .Critical => 2 | .Error => 3
  | .Warning => 4 | .Notice => 5 | .Informational => 6 | .Debug => 7

/-- The historical priority computation of src/rfc5424/mod.rs:
`facility as u8 * severity as u8`, rendered `<N>`. The `u8` product cannot
wrap: the largest value is 23 * 7 = 161. -/
def generate_priority (facility : Facility) (severity : Severity) : List Char :=
  '<' :: (Nat.toDigits 10 (facility.code * severity.code) ++ ['>'])

end Syslog5424.rfc5424

namespace Syslog5424

theorem foldl_append_flatten {α β : Type} (f : α → List β) (l : List α)
    (init : List β) :
    l.foldl (fun acc x => acc ++ f x) init = init ++ (l.map f).flatten := by
  induction l generalizing init with
  | nil => simp
  | cons x xs ih => simp [ih, List.append_assoc]

theorem sdfold_eq (eid : List Char) (sd : StructuredData) (init : List Char) :
    sd.foldl (fun log e =>
      (e.2.foldl (fun l p => l ++ pairTok p)
        (log ++ '[' :: (remove_invalid e.1 ++ '@' :: eid))) ++ [']']) init
    = init ++ (sd.map (fun e =>
        '[' :: (remove_invalid e.1 ++ '@' ::
          (eid ++ ((e.2.map pairTok).flatten ++ [']']))))).flatten := by
  induction sd generalizing init with
  | nil => simp
  | cons e es ih =>
    rw [List.foldl_cons, foldl_append_flatten, ih]
    simp [List.append_assoc]

theorem entryBlock_map (eid : List Char) (sd : StructuredData) :
    sd.map (entryBlock eid)
      = sd.map (fun e =>
          '[' :: (remove_invalid e.1 ++ '@' ::
            (eid ++ ((e.2.map pairTok).flatten ++ [']'])))) := by
  induction sd with
  | nil => rfl
  | cons e es ih => simp [entryBlock, List.append_assoc, ih]

/-- The accumulated `log` string splits into header, structured-data section
and the body-separating space. -/
theorem formatLog_decomp (cfg : Rfc5424) (m : Rfc5424Data) :
    formatLog cfg m
      = headerPart cfg m ++ sdSection cfg m
        ++ (if m.message.isSome then [' '] else []) := by
  unfold formatLog headerPart sdSection originSection timeQualitySection
    sdBlocksSection nilSection
  cases hts : m.timestamp <;> cases hsd : m.structured_data <;>
    cases ho : cfg.iana_origin.isEmpty <;>
      cases ht : cfg.iana_time_quality.isEmpty <;>
        cases hm : m.message <;>
          simp [hts, hsd, ho, ht, hm, foldl_append_flatten, sdfold_eq, entryBlock_map,
            List.append_assoc]

theorem strBytes_append (a b : List Char) :
    strBytes (a ++ b) = strBytes a ++ strBytes b := by
  simp [strBytes]

theorem strBytes_space : strBytes [' '] = [0x20] := by decide

theorem bodyBytes_len (m : Rfc5424Data) :
    (bodyBytes m).length = (msg_len m).getD 0 := by
  cases hm : m.message with
  | none => simp [bodyBytes, msg_len, hm]
  | some msg =>
    cases msg with
    | Text s => simp [bodyBytes, msg_len, hm, BOM]
    | Binary data => simp [bodyBytes, msg_len, hm]

theorem graphic_lt (c : Char) (h : is_ascii_graphic c = true) : c.toNat < 0x80 := by
  simp [is_ascii_graphic, Bool.and_eq_true, decide_eq_true_eq] at h
  omega

theorem strBytes_length_of_graphic (s : List Char)
    (h : ∀ c ∈ s, is_ascii_graphic c = true) :
    (strBytes s).length = s.length := by
  induction s with
  | nil => simp [strBytes]
  | cons c cs ih =>
    have hc1 : (charUtf8 c).length = 1 := by
      simp [charUtf8, graphic_lt c (h c (by simp))]
    have hc2 := ih (fun x hx => h x (by simp [hx]))
    simp only [strBytes, List.map_cons, List.flatten_cons, List.length_append,
      List.length_cons] at hc2 ⊢
    omega

theorem nhv_empty (m : Nat) : new_header_val [] m = .error .FieldEmpty := rfl

theorem nhv_invalid (s : List Char) (m : Nat) (h1 : s ≠ [])
    (h2 : ∃ c ∈ s, is_ascii_graphic c = false) :
    new_header_val s m = .error .InvalidCharacters := by
  obtain ⟨c, hc, hcf⟩ := h2
  simp only [new_header_val]
  rw [if_neg (by simp [List.isEmpty_iff, h1]), if_pos]
  simp only [Bool.not_eq_eq_eq_not, Bool.not_true, List.all_eq_false]
  exact ⟨c, hc, by simp [hcf]⟩

theorem nhv_too_long (s : List Char) (m : Nat)
    (h2 : ∀ c ∈ s, is_ascii_graphic c = true) (h3 : m < s.length) :
    new_header_val s m = .error .FieldTooLong := by
  have h1 : s ≠ [] := by rintro rfl; simp at h3
  simp only [new_header_val]
  rw [if_neg (by simp [List.isEmpty_iff, h1]),
    if_neg (by simp [List.all_eq_true]; exact h2),
    if_pos (by rw [strBytes_length_of_graphic s h2]; exact h3)]

theorem nhv_ok (s : List Char) (m : Nat) (h1 : s ≠ [])
    (h2 : ∀ c ∈ s, is_ascii_graphic c = true) (h3 : s.length ≤ m) :
    new_header_val s m = .ok s := by
  simp only [new_header_val]
  rw [if_neg (by simp [List.isEmpty_iff, h1]),
    if_neg (by simp [List.all_eq_true]; exact h2),
    if_neg (by rw [strBytes_length_of_graphic s h2]; omega)]

/-- C1: a configuration built with every header field left at its default,
facility User and the default (unframed) write format formats an event with
severity Debug, no timestamp, no structured data and no message as exactly
the ASCII bytes of `<15>1 - - - - - -`: nil sentinels for the timestamp,
the four header fields and the structured-data section, no trailing space,
and no space between the priority token and the version digit. -/
theorem c1_default_unframed_output (eid : List Char) :
    formatOutput ((Rfc5424Builder.new eid Facility.User).build)
      ⟨Severity.Debug, none, none, none⟩
      = strBytes "<15>1 - - - - - -".toList := by
  simp [formatOutput, formatLog, Rfc5424Builder.new, Rfc5424Builder.build,
    Rfc5424.default, HostName.default, AppName.default, ProcessId.default,
    MessageId.default, Facility.default, WriteFormat.default, generate_priority,
    Facility.code, Severity.code, NILVALUE, msg_len, bodyBytes]
  decide

/-- C2: with the RFC5425 write format, the output is the decimal octet count,
one space, then the rest of the message, and the count equals the exact byte
length of that rest: the UTF-8 bytes of the assembled log (header,
structured data and, when a body is present, the separating space) plus the
body bytes (BOM and UTF-8 text for text bodies, raw bytes for binary
bodies). -/
theorem c2_rfc5425_octet_count (cfg : Rfc5424) (m : Rfc5424Data)
    (h : cfg.write_format = WriteFormat.RFC5425) :
    formatOutput cfg m
      = strBytes (Nat.toDigits 10 (strBytes (formatLog cfg m) ++ bodyBytes m).length)
        ++ 0x20 :: (strBytes (formatLog cfg m) ++ bodyBytes m) := by
  have hb : (match msg_len m with
      | some bytes => (strBytes (formatLog cfg m)).length + bytes
      | none => (strBytes (formatLog cfg m)).length)
      = (strBytes (formatLog cfg m) ++ bodyBytes m).length := by
    rw [List.length_append, bodyBytes_len]
    cases hm : msg_len m <;> simp
  simp only [formatOutput, h, reduceIte, hb, strBytes_append, strBytes_space]
  simp [List.append_assoc]

/-- Witness for C2 at a concrete framed configuration and an event whose text
body contains a multi-byte character. -/
theorem c2_rfc5425_octet_count_witness :
    formatOutput cfgC2 evC2
      = strBytes (Nat.toDigits 10 (strBytes (formatLog cfgC2 evC2) ++ bodyBytes evC2).length)
        ++ 0x20 :: (strBytes (formatLog cfgC2 evC2) ++ bodyBytes evC2) :=
  c2_rfc5425_octet_count cfgC2 evC2 rfl

/-- C3: each header-field constructor rejects the empty string with
FieldEmpty, rejects any non-empty string containing a character outside
ASCII graphic with InvalidCharacters, rejects an all-graphic string longer
than the cap of the type (255 for HostName, 48 for AppName, 128 for
ProcessId, 32 for MessageId) with FieldTooLong, and accepts any other
string wrapped unmodified. -/
theorem c3_header_field_constructors (s : List Char) :
    (s = [] →
      HostName.new s = .error .FieldEmpty ∧ AppName.new s = .error .FieldEmpty ∧
      ProcessId.new s = .error .FieldEmpty ∧ MessageId.new s = .error .FieldEmpty) ∧
    (s ≠ [] → (∃ c ∈ s, is_ascii_graphic c = false) →
      HostName.new s = .error .InvalidCharacters ∧
      AppName.new s = .error .InvalidCharacters ∧
      ProcessId.new s = .error .InvalidCharacters ∧
      MessageId.new s = .error .InvalidCharacters) ∧
    ((∀ c ∈ s, is_ascii_graphic c = true) →
      (255 < s.length → HostName.new s = .error .FieldTooLong) ∧
      (48 < s.length → AppName.new s = .error .FieldTooLong) ∧
      (128 < s.length → ProcessId.new s = .error .FieldTooLong) ∧
      (32 < s.length → MessageId.new s = .error .FieldTooLong)) ∧
    (s ≠ [] → (∀ c ∈ s, is_ascii_graphic c = true) →
      (s.length ≤ 255 → HostName.new s = .ok ⟨s⟩) ∧
      (s.length ≤ 48 → AppName.new s = .ok ⟨s⟩) ∧
      (s.length ≤ 128 → ProcessId.new s = .ok ⟨s⟩) ∧
      (s.length ≤ 32 → MessageId.new s = .ok ⟨s⟩)) := by
  refine ⟨?_, ?_, ?_, ?_⟩
  · rintro rfl
    exact ⟨rfl, rfl, rfl, rfl⟩
  · intro h1 h2
    simp [HostName.new, AppName.new, ProcessId.new, MessageId.new,
      nhv_invalid s _ h1 h2, Except.map]
  · intro h2
    refine ⟨fun h3 => ?_, fun h3 => ?_, fun h3 => ?_, fun h3 => ?_⟩ <;>
      simp [HostName.new, AppName.new, ProcessId.new, MessageId.new,
        nhv_too_long s _ h2 h3, Except.map]
  · intro h1 h2
    refine ⟨fun h3 => ?_, fun h3 => ?_, fun h3 => ?_, fun h3 => ?_⟩ <;>
      simp [HostName.new, AppName.new, ProcessId.new, MessageId.new,
        nhv_ok s _ h1 h2 h3, Except.map]

/-- C4 as stated is false: an event whose structured_data is Some of the
empty mapping, against a configuration with both reserved blocks empty,
yields a structured-data section that is the true empty string, not the nil
sentinel and not a non-empty string; the full log then ends in the header's
trailing space with nothing after it. -/
theorem c4_empty_map_counterexample :
    evC4.structured_data = some StructuredData.empty ∧
    cfgC4.iana_origin = [] ∧ cfgC4.iana_time_quality = [] ∧
    sdSection cfgC4 evC4 = [] ∧
    formatLog cfgC4 evC4 = "<15>1 - - - - - ".toList :=
  ⟨rfl, rfl, rfl, rfl, by decide⟩

/-- C4 amended: the structured-data section is the nil sentinel exactly when
the event supplies no structured data and both reserved blocks are empty;
it is the true empty string exactly when the event supplies Some of the
empty mapping and both reserved blocks are empty; in every other case it is
non-empty (and differs from the bare nil sentinel). -/
theorem c4_nil_sentinel_rule (cfg : Rfc5424) (sev : Severity)
    (ts : Option (List Char)) (msgb : Option Message)
    (sdo : Option StructuredData) :
    (sdSection cfg ⟨sev, ts, sdo, msgb⟩ = [NILVALUE]
      ↔ sdo = none ∧ cfg.iana_origin = [] ∧ cfg.iana_time_quality = []) ∧
    (sdSection cfg ⟨sev, ts, sdo, msgb⟩ = []
      ↔ sdo = some [] ∧ cfg.iana_origin = [] ∧ cfg.iana_time_quality = []) := by
  cases ho : cfg.iana_origin <;> cases ht : cfg.iana_time_quality <;>
    rcases sdo with _ | (_ | ⟨e, es⟩) <;>
      simp [sdSection, originSection, timeQualitySection, sdBlocksSection,
        nilSection, entryBlock, ho, ht, NILVALUE, StructuredData.empty,
        List.append_assoc]

/-- C5 as stated is false for duplicate identifiers: the structured-data
input is a map, and inserting a second pair sequence under an identifier
already present replaces the first, which is then absent from the rendered
blocks — here the pair a=1 supplied first under `dup` is discarded, not
emitted. -/
theorem c5_duplicate_id_counterexample :
    sdC5 = [("dup".toList, [("b".toList, "2".toList)])] ∧
    sdBlocksSection "32473".toList (some sdC5) = "[dup@32473 b=\"2\"]".toList :=
  ⟨by decide, by decide⟩

/-- C5 amended: duplicate parameter names inside one identifier are permitted
and the encoder emits every entry of the map and every (name, value) pair of
its sequence verbatim and in order, duplicates among pairs included — the
emitted log is the header followed by one block per entry, each block
containing one token per pair; duplicate identifiers, however, cannot
coexist in the input map (see the counterexample). -/
theorem c5_structured_data_emission (cfg : Rfc5424) (sev : Severity)
    (ts : Option (List Char)) (msgb : Option Message) (sd : StructuredData) :
    formatLog cfg ⟨sev, ts, some sd, msgb⟩
      = headerPart cfg ⟨sev, ts, some sd, msgb⟩
        ++ originSection cfg ++ timeQualitySection cfg
        ++ (sd.map (entryBlock cfg.enterprise_id)).flatten
        ++ (if msgb.isSome then [' '] else []) := by
  rw [formatLog_decomp]
  simp [sdSection, sdBlocksSection, nilSection, List.append_assoc]

/-- C6: the priority of the main encoder is facility code times eight plus
severity code rendered `<N>` without padding (User with Error gives `<11>`),
while the historical implementation in src/rfc5424/mod.rs multiplies the two
codes (User with Error gives `<3>`), so the two disagree at that pair. -/
theorem c6_priority_formulas :
    (∀ f s, generate_priority f s
        = '<' :: (Nat.toDigits 10 (f.code * 8 + s.code) ++ ['>'])) ∧
    (∀ f s, rfc5424.generate_priority f s
        = '<' :: (Nat.toDigits 10 (f.code * s.code) ++ ['>'])) ∧
    generate_priority .User .Error = "<11>".toList ∧
    rfc5424.generate_priority .User .Error = "<3>".toList ∧
    rfc5424.generate_priority .User .Error ≠ generate_priority .User .Error :=
  ⟨fun _ _ => rfl, fun _ _ => rfl, by decide, by decide, by decide⟩

/-- C7: escape_val is the sequential composition of the three ordered
single-character substitutions, backslash first, then double-quote, then
closing bracket, and it is not idempotent: re-escaping a lone backslash
doubles the backslashes again. -/
theorem c7_escape_val_composition :
    (∀ s, escape_val s
      = replaceChar ']' ['\\', ']']
          (replaceChar '"' ['\\', '"'] (replaceChar '\\' ['\\', '\\'] s))) ∧
    escape_val (escape_val ['\\']) ≠ escape_val ['\\'] :=
  ⟨fun _ => rfl, by decide⟩

/-- C8: for every input, remove_invalid yields at most 32 characters, every
character of the output is ASCII graphic and none of `=`, space, `]`, `"`,
and the output is a sublist of the input, so surviving characters keep
their original relative order. -/
theorem c8_remove_invalid_props (s : List Char) :
    (remove_invalid s).length ≤ 32 ∧
    (∀ c ∈ remove_invalid s,
      is_ascii_graphic c = true ∧ c ≠ '=' ∧ c ≠ ' ' ∧ c ≠ ']' ∧ c ≠ '"') ∧
    (remove_invalid s).Sublist s := by
  unfold remove_invalid
  refine ⟨List.length_take_le _ _, ?_, ?_⟩
  · intro c hc
    have h1 := List.mem_of_mem_take hc
    simp only [List.mem_filter, bne_iff_ne, ne_eq] at h1
    obtain ⟨⟨⟨⟨⟨-, hg⟩, h2⟩, h3⟩, h4⟩, h5⟩ := h1
    exact ⟨hg, h2, h3, h4, h5⟩
  · exact (List.take_sublist _ _).trans ((List.filter_sublist _).trans
      ((List.filter_sublist _).trans ((List.filter_sublist _).trans
        ((List.filter_sublist _).trans (List.filter_sublist _)))))

/-- C9: rendering TzKnown uses the parameter name tzKnown for the true flag
but the different name tz_known (with an underscore) for the false flag,
while IsSynced uses the single name isSynced for both boolean values. -/
theorem c9_time_quality_display :
    TimeQuality.display (.TzKnown true) = " tzKnown=\"1\"".toList ∧
    TimeQuality.display (.TzKnown false) = " tz_known=\"0\"".toList ∧
    TimeQuality.display (.IsSynced true) = " isSynced=\"1\"".toList ∧
    TimeQuality.display (.IsSynced false) = " isSynced=\"0\"".toList :=
  ⟨rfl, rfl, rfl, rfl⟩

/-- C10: the builder stores the enterprise id verbatim with no validation,
and for every configuration and event entry the formatted log contains,
directly after the bracket and sanitized identifier, the `@` followed by the
stored enterprise id unchanged; the concrete conjunct shows an enterprise id
containing `]`, space and `"` appearing unmodified in the output. -/
theorem c10_enterprise_id_verbatim :
    (∀ (eid : List Char) (f : Facility),
      ((Rfc5424Builder.new eid f).build).enterprise_id = eid) ∧
    (∀ (cfg : Rfc5424) (sev : Severity) (ts : Option (List Char))
        (msgb : Option Message) (sd : StructuredData)
        (sid : List Char) (pairs : List (List Char × List Char)),
      (sid, pairs) ∈ sd →
      ('[' :: (remove_invalid sid ++ '@' :: cfg.enterprise_id))
        <:+: formatLog cfg ⟨sev, ts, some sd, msgb⟩) ∧
    formatLog cfgC10 evC10 = "<14>1 - - - - - [myid@a] \"b k=\"v\"]".toList := by
  refine ⟨fun _ _ => rfl, ?_, by decide⟩
  intro cfg sev ts msgb sd sid pairs hmem
  rw [formatLog_decomp]
  have h1 : ('[' :: (remove_invalid sid ++ '@' :: cfg.enterprise_id))
      <+: entryBlock cfg.enterprise_id (sid, pairs) :=
    ⟨(pairs.map pairTok).flatten ++ [']'], by simp [entryBlock, List.append_assoc]⟩
  have h2 : entryBlock cfg.enterprise_id (sid, pairs)
      <:+: sdBlocksSection cfg.enterprise_id (some sd) :=
    List.infix_of_mem_flatten (List.mem_map_of_mem _ hmem)
  have h3 : sdBlocksSection cfg.enterprise_id (some sd)
      <:+: sdSection cfg ⟨sev, ts, some sd, msgb⟩ :=
    ⟨originSection cfg ++ timeQualitySection cfg,
      nilSection cfg (some sd), by simp [sdSection, List.append_assoc]⟩
  have h4 : sdSection cfg ⟨sev, ts, some sd, msgb⟩
      <:+: headerPart cfg ⟨sev, ts, some sd, msgb⟩
        ++ sdSection cfg ⟨sev, ts, some sd, msgb⟩
        ++ (if (msgb : Option Message).isSome then [' '] else []) :=
    ⟨headerPart cfg ⟨sev, ts, some sd, msgb⟩,
      (if (msgb : Option Message).isSome then [' '] else []),
      by simp [List.append_assoc]⟩
  exact h1.isInfix.trans (h2.trans (h3.trans h4))

end Syslog5424
